import Mathlib

/-!
# Verification of the 2030 forecasting and classification engine

Shallow embedding of the per-country hybrid forecasting and classification
engine of this repository, covering:

* `src/forecast_to_2030.py` — lagged-feature model fitting, the recursive
  year-by-year projection loop to 2030, and the Green/Orange/Red status
  classifier;
* `src/projections.py` — the year-only 2030 projection, `get_status`,
  `calculate_score` and `get_grade`.

Machine floats are idealised as rationals (`ℚ`).  The single place where
IEEE semantics are visible at the rational level — division by an exactly
zero last-observed value in the GDP growth rule — is modelled explicitly by
a case split, documented at `gdpGrowthStatus`.
-/

namespace ForecastEngine

/-- The seven indicators of the pipeline, in the order of `numeric_cols` in
`forecast_to_2030.py`. -/
inductive Ind where
  | realGDPPerCapita
  | neetRate
  | unemploymentRate
  | incomeDistributionRatio
  | incomeShareBottom40
  | renewableEnergyShare
  | ghgEmissions
deriving DecidableEq, Repr

/-- Direction of a goal, `lower_is_better` / `higher_is_better` in
`targets_2030` of `forecast_to_2030.py`. -/
inductive Direction where
  | lower
  | higher
deriving DecidableEq, Repr

/-- Status labels emitted by both classifiers (`Green`, `Orange`,
`Red`).  The `Error` default of `forecast_to_2030.py` line 168 is dead
code — every branch of the classifier assigns a status — so it has no
constructor here. -/
inductive Status where
  | green
  | orange
  | red
deriving DecidableEq, Repr

/-- `targets_2030` dictionary of `forecast_to_2030.py` (lines 30–38):
optional fixed numeric target value, plus goal direction. -/
def targets2030 : Ind → Option ℚ × Direction
  | .realGDPPerCapita => (none, .higher)
  | .neetRate => (some 9, .lower)
  | .unemploymentRate => (some 5, .lower)
  | .incomeDistributionRatio => (none, .lower)
  | .incomeShareBottom40 => (none, .higher)
  | .renewableEnergyShare => (some (85/2), .higher)
  | .ghgEmissions => (none, .lower)

/-- `feature_selection_map` of `forecast_to_2030.py` (lines 41–48): the
lag-1 predictor indicators of the model of each indicator.  `GHG_Emissions` is
absent from the source dictionary and `feature_selection_map.get(col, [])`
defaults to the empty list; moreover its fitting branch forces
`feature_cols = [Year]`, which coincides with the empty lag list here. -/
def featureSelectionMap : Ind → List Ind
  | .realGDPPerCapita => [.neetRate, .incomeDistributionRatio]
  | .neetRate => [.unemploymentRate, .incomeDistributionRatio]
  | .unemploymentRate => [.neetRate, .incomeDistributionRatio]
  | .incomeDistributionRatio => [.neetRate, .incomeShareBottom40]
  | .incomeShareBottom40 => [.neetRate, .incomeDistributionRatio]
  | .renewableEnergyShare => [.realGDPPerCapita]
  | .ghgEmissions => []

/-- The growth-based status rule for `Real_GDP_Per_Capita`
(`forecast_to_2030.py` lines 191–199):
`growth_pct = ((forecast - last) / last) * 100`, then
`> 10 → Green`, `elif >= 5 → Orange`, `else Red`.

When `last = 0` the source divides by zero: the operands are numpy
float64 values (warnings are suppressed at line 11), so no exception is
raised and `growth_pct` is `+inf` when `forecast > 0` (hence `> 10` holds,
Green), and `nan` or `-inf` otherwise (every comparison fails, Red).
Rationals have no infinities, so that float behaviour is transcribed as an
explicit case split on `last = 0`. -/
def gdpGrowthStatus (last forecast : ℚ) : Status :=
  if last = 0 then
    if 0 < forecast then .green else .red
  else
    let growthPct := (forecast - last) / last * 100
    if 10 < growthPct then .green
    else if 5 ≤ growthPct then .orange
    else .red

/-- The color-coded status logic of `forecast_to_2030.py` (lines 163–207)
for one indicator, given the last observed (2022) value and the 2030
forecast. -/
def classify2030 (col : Ind) (last forecast : ℚ) : Status :=
  match (targets2030 col).1 with
  | some goal =>
    match (targets2030 col).2 with
    | .lower =>
      if forecast ≤ goal then .green
      else if forecast < last then .orange
      else .red
    | .higher =>
      if goal ≤ forecast then .green
      else if last < forecast then .orange
      else .red
  | none =>
    if col = .realGDPPerCapita then gdpGrowthStatus last forecast
    else
      match (targets2030 col).2 with
      | .lower => if forecast < last then .green else .red
      | .higher => if last < forecast then .green else .red

/-- Target rules of `projections.py` (`TARGETS`, lines 28–41): either a
fixed numeric goal with a direction, or one of the two relative rules. -/
inductive PTarget where
  | fixed (goal : ℚ) (dir : Direction)
  | growth
  | reductionVs2005
deriving DecidableEq, Repr

/-- `TARGETS` dictionary of `projections.py`. -/
def pTargets : Ind → PTarget
  | .neetRate => .fixed 9 .lower
  | .unemploymentRate => .fixed 5 .lower
  | .realGDPPerCapita => .growth
  | .incomeDistributionRatio => .fixed 4 .lower
  | .incomeShareBottom40 => .fixed 24 .higher
  | .renewableEnergyShare => .fixed (85/2) .higher
  | .ghgEmissions => .reductionVs2005

/-- `get_status` of `projections.py` (lines 98–132).  `val2005` is the
2005 `GHG_Emissions` lookup for the country: `none` models the `except` branch
(the lookup raising, e.g. no 2005 row).  The `0.60` multiplier is the
rational `3/5`. -/
def get_status (ind : Ind) (val2030 valLatest : ℚ) (val2005 : Option ℚ) : Status :=
  if ind = .realGDPPerCapita then
    if valLatest < val2030 then .green else .red
  else if ind = .ghgEmissions then
    match val2005 with
    | some v2005 =>
      if val2030 ≤ v2005 * (3/5) then .green
      else if val2030 < valLatest then .orange
      else .red
    | none => if val2030 < valLatest then .orange else .red
  else
    match pTargets ind with
    | .fixed goal .lower =>
      if val2030 ≤ goal then .green
      else if val2030 < valLatest then .orange
      else .red
    | .fixed goal .higher =>
      if goal ≤ val2030 then .green
      else if valLatest < val2030 then .orange
      else .red
    | _ => .red

/-- A forecast satisfies a fixed threshold inclusively in the configured
direction (the condition the spec calls target met). -/
def meetsTarget (dir : Direction) (goal forecast : ℚ) : Prop :=
  match dir with
  | .lower => forecast ≤ goal
  | .higher => goal ≤ forecast

/-- A forecast is strictly better than the last observed value in the
configured direction (the condition the spec calls improving). -/
def strictlyBetter (dir : Direction) (last forecast : ℚ) : Prop :=
  match dir with
  | .lower => forecast < last
  | .higher => last < forecast

instance (dir : Direction) (goal forecast : ℚ) : Decidable (meetsTarget dir goal forecast) := by
  cases dir <;> simp [meetsTarget] <;> infer_instance

instance (dir : Direction) (last forecast : ℚ) : Decidable (strictlyBetter dir last forecast) := by
  cases dir <;> simp [strictlyBetter] <;> infer_instance

/-- A fitted `sklearn.linear_model.LinearRegression`: an intercept and one
coefficient per feature column, predicting
`intercept + coefs · featureVector`.  The exact coefficient values are
computed by the library (an external collaborator of the repository), so
the pipeline below is parameterised over the fit function. -/
structure LinModel where
  intercept : ℚ
  coefs : List ℚ
deriving DecidableEq, Repr

/-- Dot product of two coefficient/feature lists (zero-padded, as the
shorter list simply contributes nothing). -/
def dotProd : List ℚ → List ℚ → ℚ
  | a :: as, b :: bs => a * b + dotProd as bs
  | _, _ => 0

/-- `model.predict` on one feature row. -/
def LinModel.predict (m : LinModel) (x : List ℚ) : ℚ :=
  m.intercept + dotProd m.coefs x

/-- One record of a Forecast Path (one row of `forecast_df` in
`forecast_to_2030.py`): the year, the current-year value of every
indicator, and the `_lag1` value of every indicator. -/
structure PathRec where
  year : ℤ
  cur : Ind → ℚ
  lag : Ind → ℚ

/-- The indicators whose negative predictions are clamped to zero in the
recursive loop (`forecast_to_2030.py` line 110), in source order. -/
def clampList : List Ind :=
  [.neetRate, .unemploymentRate, .renewableEnergyShare,
   .incomeDistributionRatio, .incomeShareBottom40]

/-- The ordered feature columns of the model of an indicator:
`[Year] + selected_features` (`forecast_to_2030.py` lines 81, 86),
with the lag-1 columns represented by the indicators they lag. -/
def modelFeatures (col : Ind) : List Ind := featureSelectionMap col

/-- The feature row the recursive loop feeds to `model.predict` for year
`y`: the year followed by the required `_lag1` values, which the loop
fills from the current values of the previous record. -/
def featVec (col : Ind) (y : ℤ) (lagf : Ind → ℚ) : List ℚ :=
  (y : ℚ) :: (modelFeatures col).map lagf

/-- The raw (pre-clamp) model prediction for indicator `col` in the year
following `prev` (`predicted_value`, `forecast_to_2030.py` line 107). -/
def rawPrediction (models : Ind → LinModel) (prev : PathRec) (col : Ind) : ℚ :=
  (models col).predict (featVec col (prev.year + 1) prev.cur)

/-- One iteration of the recursive forecast loop (`forecast_to_2030.py`
lines 97–114): the `_lag1` fields of the new record are the current
values of the previous record for all seven indicators; the current value
of each indicator is the prediction of its model from the year and those lag fields (predictions of
the same year are never features of each other — every feature list is
`Year` plus lag columns), clamped at zero for the `clampList` indicators. -/
def forecastStep (models : Ind → LinModel) (prev : PathRec) : PathRec where
  year := prev.year + 1
  lag := prev.cur
  cur := fun col =>
    let p := rawPrediction models prev col
    if col ∈ clampList ∧ p < 0 then 0 else p

/-- The Forecast Path: record `0` is the anchor (the actual 2022 row), and
record `n` is reached after `n` iterations of the loop; the source runs
`for year in range(2023, 2031)`, i.e. records `1` to `8`. -/
def forecastPath (models : Ind → LinModel) (anchor : PathRec) : Nat → PathRec
  | 0 => anchor
  | n + 1 => forecastStep models (forecastPath models anchor n)

/-- The seven indicator values of one row, each possibly missing (NaN). -/
structure Vals where
  gdp : Option ℚ
  neet : Option ℚ
  unemp : Option ℚ
  idr : Option ℚ
  isb : Option ℚ
  res : Option ℚ
  ghg : Option ℚ
deriving DecidableEq, Repr

/-- Column access on a row of values. -/
def Vals.get (v : Vals) : Ind → Option ℚ
  | .realGDPPerCapita => v.gdp
  | .neetRate => v.neet
  | .unemploymentRate => v.unemp
  | .incomeDistributionRatio => v.idr
  | .incomeShareBottom40 => v.isb
  | .renewableEnergyShare => v.res
  | .ghgEmissions => v.ghg

/-- All seven indicator columns of the row are non-missing. -/
def Vals.allSome (v : Vals) : Bool :=
  v.gdp.isSome && v.neet.isSome && v.unemp.isSome && v.idr.isSome &&
  v.isb.isSome && v.res.isSome && v.ghg.isSome

/-- One historical row of `df_country`: year plus indicator values. -/
structure Obs where
  year : ℤ
  vals : Vals
deriving DecidableEq, Repr

/-- A row of `df_country` after the `shift(1)` lag augmentation
(`forecast_to_2030.py` lines 73–74): the original columns plus the seven
`_lag1` columns. -/
structure LagObs where
  year : ℤ
  vals : Vals
  lags : Vals
deriving DecidableEq, Repr

/-- The all-missing value row (the lag columns of the first row of a country). -/
def noneVals : Vals := ⟨none, none, none, none, none, none, none⟩

/-- Lag augmentation: the `_lag1` columns of each row are the indicator
values of the previous row; the lag columns of the first row are all
missing
(`df_country[numeric_cols].shift(1)`). -/
def buildLaggedFrom (prev : Vals) : List Obs → List LagObs
  | [] => []
  | r :: rs => ⟨r.year, r.vals, prev⟩ :: buildLaggedFrom r.vals rs

/-- `df_country` with its `_lag1` columns, as in the source. -/
def buildLagged (rows : List Obs) : List LagObs :=
  buildLaggedFrom noneVals rows

/-- `train_data = df_country.dropna()` (`forecast_to_2030.py` line 76):
keeps exactly the rows in which every column — all seven indicators and
all seven lag columns, whether or not any given model uses them — is
non-missing. -/
def dropna (rows : List LagObs) : List LagObs :=
  rows.filter fun r => r.vals.allSome && r.lags.allSome

/-- The training rows actually used for the model of an indicator
(`forecast_to_2030.py` lines 79–88): all rows of `df_country` for
`GHG_Emissions` (whose branch indexes `df_country` directly), and
`train_data = df_country.dropna()` for every other indicator. -/
def trainRowsFor (rows : List Obs) (col : Ind) : List LagObs :=
  if col = .ghgEmissions then buildLagged rows else dropna (buildLagged rows)

/-- The training-row selection as the spec words it, for the refinement
comparison with `trainRowsFor` (not a source transcription): "the rows of
that country where the target indicator and all of the chosen
feature columns (year plus its configured lag-1 predictors) are
non-missing". -/
def specTrainRows (rows : List Obs) (col : Ind) : List LagObs :=
  (buildLagged rows).filter fun r =>
    (r.vals.get col).isSome && (modelFeatures col).all fun f => (r.lags.get f).isSome

/-- The feature row `X_train` extracts from one training row:
`[Year] + selected_features`.  After `dropna` the lag columns are
present; `getD 0` only makes the extraction total. -/
def featRowOf (col : Ind) (r : LagObs) : List ℚ :=
  (r.year : ℚ) :: (modelFeatures col).map fun f => (r.lags.get f).getD 0

/-- `X_train` for an indicator: one feature row per training row. -/
def designMatrix (rows : List Obs) (col : Ind) : List (List ℚ) :=
  (trainRowsFor rows col).map (featRowOf col)

/-- `y_train` for an indicator: the target column of the training rows. -/
def targetVec (rows : List Obs) (col : Ind) : List ℚ :=
  (trainRowsFor rows col).map fun r => (r.vals.get col).getD 0

/-- The number of parameters of the linear model of an indicator: one
coefficient per feature column (`Year` plus the lag-1 predictors) plus the
intercept. -/
def paramCount (col : Ind) : Nat :=
  (modelFeatures col).length + 2

/-- The per-indicator fitting loop of `forecast_to_2030.py` (lines
79–92): for every one of the seven indicators it calls the library fit on
the design matrix and target vector of that indicator, unconditionally — there
is no training-row-count check and no failure path (`fit` stands for
`LinearRegression().fit`, which succeeds on any non-empty training set,
underdetermined ones included, and would raise only on an empty one,
aborting the whole script). -/
def buildModels (fit : List (List ℚ) → List ℚ → LinModel) (rows : List Obs) :
    Ind → LinModel :=
  fun col => fit (designMatrix rows col) (targetVec rows col)

/-- `last_known_data`, the 2022 row, as the anchor record of the Forecast
Path (`forecast_to_2030.py` lines 94–95); missing fields default to 0 only
to make the embedding total. -/
def mkAnchor (r : LagObs) : PathRec where
  year := r.year
  cur := fun i => (r.vals.get i).getD 0
  lag := fun i => (r.lags.get i).getD 0

/-- One output row of `all_forecasts` (`forecast_to_2030.py` lines
209–216): the last observed value, the numeric 2030 forecast taken from
the Forecast Path, and the classified status.  The output schema has no
"no forecast" marker — the forecast field is always a number. -/
structure OutRec where
  lastValue : ℚ
  forecastValue : ℚ
  status : Status
deriving DecidableEq, Repr

/-- The status-table row built for one indicator after the recursive loop
(`forecast_to_2030.py` lines 161–216): 2030 is record 8 of the path. -/
def outRec2030 (models : Ind → LinModel) (anchor : PathRec) (col : Ind) : OutRec :=
  let forecastValue := (forecastPath models anchor 8).cur col
  { lastValue := anchor.cur col
    forecastValue := forecastValue
    status := classify2030 col (anchor.cur col) forecastValue }

/-- `score_map` mapping `Green` to 3, `Orange` to 2 and `Red` to 1 (`projections.py`
line 141). -/
def scoreMap : Status → ℤ
  | .green => 3
  | .orange => 2
  | .red => 1

/-- Round-half-to-even to an integer, the semantics of the built-in
`round` of Python used by `projections.py`. -/
def roundHalfEven (q : ℚ) : ℤ :=
  if q - ⌊q⌋ < 1/2 then ⌊q⌋
  else if 1/2 < q - ⌊q⌋ then ⌊q⌋ + 1
  else if 2 ∣ ⌊q⌋ then ⌊q⌋ else ⌊q⌋ + 1

/-- `round(x, 2)`: round to two decimal places. -/
def round2 (q : ℚ) : ℚ := (roundHalfEven (q * 100) : ℚ) / 100

/-- `calculate_score` (`projections.py` lines 144–147): the mean of the
ordinal scores of the statuses of the row, rounded to two decimals. -/
def calculate_score (statuses : List Status) : ℚ :=
  round2 ((statuses.map fun s => (scoreMap s : ℚ)).sum / statuses.length)

/-- The three final grades of `get_grade`. -/
inductive Grade where
  | onTrack
  | progressing
  | offTrack
deriving DecidableEq, Repr

/-- `get_grade` (`projections.py` lines 151–154). -/
def get_grade (score : ℚ) : Grade :=
  if 5/2 ≤ score then .onTrack
  else if 9/5 ≤ score then .progressing
  else .offTrack

/-- One (year, value) observation of a single indicator column for one
country, as consumed by the prediction engine of `projections.py`. -/
structure YRow where
  year : ℤ
  value : ℚ
deriving DecidableEq, Repr

/-- `df_train`, the rows of `df_country` whose `Year` is not 2020
(`projections.py` line 70). -/
def dfTrain (rows : List YRow) : List YRow :=
  rows.filter fun r => r.year ≠ 2020

/-- Ordinary-least-squares slope of `value` against `year`, the exact
solution `LinearRegression().fit` computes for a single feature
(`projections.py` lines 73–78), floats idealised as rationals. -/
def olsSlope (rows : List YRow) : ℚ :=
  let n : ℚ := rows.length
  let sx := (rows.map fun r => (r.year : ℚ)).sum
  let sy := (rows.map YRow.value).sum
  let sxy := (rows.map fun r => (r.year : ℚ) * r.value).sum
  let sxx := (rows.map fun r => (r.year : ℚ) ^ 2).sum
  (n * sxy - sx * sy) / (n * sxx - sx ^ 2)

/-- Ordinary-least-squares intercept of `value` against `year`. -/
def olsIntercept (rows : List YRow) : ℚ :=
  let n : ℚ := rows.length
  let sx := (rows.map fun r => (r.year : ℚ)).sum
  let sy := (rows.map YRow.value).sum
  (sy - olsSlope rows * sx) / n

/-- The fitted year-only line evaluated at a year (`model.predict`). -/
def olsPredictAt (rows : List YRow) (y : ℤ) : ℚ :=
  olsIntercept rows + olsSlope rows * y

/-- `pred_2030` of `projections.py` (lines 70–81): fit a year-only linear
regression on the rows of the country with year 2020 excluded, and evaluate it
at 2030. -/
def projPred2030 (rows : List YRow) : ℚ :=
  olsPredictAt (dfTrain rows) 2030

/-- A concrete country table with four rows (2019–2022) in which the 2021
row is missing exactly one value, `NEET_Rate`. -/
def exRows : List Obs :=
  [⟨2019, ⟨some 1, some 2, some 3, some 4, some 5, some 6, some 7⟩⟩,
   ⟨2020, ⟨some 11, some 12, some 13, some 14, some 15, some 16, some 17⟩⟩,
   ⟨2021, ⟨some 21, none, some 23, some 24, some 25, some 26, some 27⟩⟩,
   ⟨2022, ⟨some 31, some 32, some 33, some 34, some 35, some 36, some 37⟩⟩]

/-- The lag-augmented 2021 row of `exRows`: its own values plus the 2020
values as lags.  `Renewable_Energy_Share` and its only model feature (the
`Real_GDP_Per_Capita` lag) are both present; only the unused `NEET_Rate`
column is missing. -/
def exRow2021 : LagObs :=
  ⟨2021, ⟨some 21, none, some 23, some 24, some 25, some 26, some 27⟩,
    ⟨some 11, some 12, some 13, some 14, some 15, some 16, some 17⟩⟩

/-- A fit backend recording the behaviour of `LinearRegression().fit` on a
single training row: after intercept centering the design matrix is all
zeros, `lstsq` returns zero coefficients, and the intercept is the mean of
the target vector — the value of its single row. -/
def oneRowFit : List (List ℚ) → List ℚ → LinModel :=
  fun xs ys =>
    { intercept := ys.headD 0, coefs := List.replicate (xs.headD []).length 0 }

/-- The lag-augmented 2022 row of `exRows`, the anchor of its Forecast
Path (`last_known_data`). -/
def exAnchor : LagObs :=
  ⟨2022, ⟨some 31, some 32, some 33, some 34, some 35, some 36, some 37⟩,
    ⟨some 21, none, some 23, some 24, some 25, some 26, some 27⟩⟩

/-- A concrete seven-status list for instantiating the score theorem. -/
def demoStatuses : List Status :=
  [.green, .green, .green, .orange, .orange, .red, .red]

/-- A concrete model set used to instantiate universally quantified
theorems about the recursive loop. -/
def demoModels : Ind → LinModel := fun _ => { intercept := 1, coefs := [2] }

/-- A model set whose raw predictions are negative, exercising the clamp. -/
def negModels : Ind → LinModel := fun _ => { intercept := -1, coefs := [] }

/-- A concrete anchor record (year 2022) for instantiating theorems. -/
def demoAnchor : PathRec where
  year := 2022
  cur := fun _ => 10
  lag := fun _ => 9

/-- C1: for every year from 2023 (record 1) to 2030 (record 8) of a
Forecast Path, the lag-1 field of the record equals the current-value
field of the previous record, for every one of the seven indicators; and
each step of the loop is a function of the year number and the
current-value fields of the previous record only (no look-ahead). -/
theorem forecast_path_causality (models : Ind → LinModel) (anchor : PathRec)
    (n : Nat) (h1 : 1 ≤ n) (h8 : n ≤ 8) :
    (∀ i, (forecastPath models anchor n).lag i =
      (forecastPath models anchor (n - 1)).cur i) ∧
    ((forecastPath models anchor n).year = anchor.year + n) ∧
    (∀ r s : PathRec, r.year = s.year → (∀ i, r.cur i = s.cur i) →
      ∀ i, (forecastStep models r).cur i = (forecastStep models s).cur i ∧
        (forecastStep models r).lag i = (forecastStep models s).lag i ∧
        (forecastStep models r).year = (forecastStep models s).year) := by
  refine ⟨?_, ?_, ?_⟩
  · obtain ⟨m, rfl⟩ : ∃ m, n = m + 1 := ⟨n - 1, (Nat.succ_pred_eq_of_pos h1).symm⟩
    intro i
    simp [forecastPath, forecastStep]
  · clear h1 h8
    induction n with
    | zero => simp [forecastPath]
    | succ m ih => simp [forecastPath, forecastStep, ih]; ring
  · intro r s hy hc i
    have hcur : r.cur = s.cur := funext hc
    refine ⟨?_, ?_, ?_⟩ <;>
      simp [forecastStep, rawPrediction, featVec, hy, hcur]

/-- C1 witness: the causality invariant evaluated on a concrete model set
and anchor, at record 1 (year 2023). -/
theorem forecast_path_causality_witness :
    1 ≤ 1 ∧ (1 : Nat) ≤ 8 ∧
    (forecastPath demoModels demoAnchor 1).lag Ind.neetRate =
      (forecastPath demoModels demoAnchor 0).cur Ind.neetRate :=
  ⟨le_refl 1, by norm_num,
    (forecast_path_causality demoModels demoAnchor 1 (le_refl 1) (by norm_num)).1
      Ind.neetRate⟩

/-- C5 counterexample: the source clamps five indicators, not four — the
clamp list of `forecast_to_2030.py` line 110 (`NEET_Rate`,
`Unemployment_Rate`, `Renewable_Energy_Share`, `Income_Distribution_Ratio`,
`Income_Share_Bottom_40`) has five members. -/
theorem clamp_list_has_five_members :
    clampList.length = 5 ∧ clampList.length ≠ 4 :=
  ⟨by decide, by decide⟩

/-- C5 (amended to five indicators): during recursive projection, for each
of the five bounded-below indicators of the clamp list, a negative model
prediction is stored as exactly zero and a non-negative one unchanged; no
indicator is ever clamped from above (the stored value is never below the
raw prediction, and outside the clamp list it equals the raw prediction);
consequently every path value of a clamped indicator from record 1 onwards
is non-negative. -/
theorem clamp_floor_invariant (models : Ind → LinModel) (prev anchor : PathRec)
    (i : Ind) (n : Nat) (hmem : i ∈ clampList) (hn : 1 ≤ n) :
    ((forecastStep models prev).cur i =
      if rawPrediction models prev i < 0 then 0 else rawPrediction models prev i) ∧
    (∀ j : Ind, j ∉ clampList →
      (forecastStep models prev).cur j = rawPrediction models prev j) ∧
    (∀ j : Ind, rawPrediction models prev j ≤ (forecastStep models prev).cur j) ∧
    0 ≤ (forecastPath models anchor n).cur i := by
  refine ⟨?_, ?_, ?_, ?_⟩
  · by_cases hneg : rawPrediction models prev i < 0 <;>
      simp [forecastStep, hmem, hneg]
  · intro j hj
    simp [forecastStep, hj]
  · intro j
    by_cases hj : j ∈ clampList <;>
      by_cases hneg : rawPrediction models prev j < 0 <;>
      simp [forecastStep, hj, hneg]
    linarith
  · obtain ⟨m, rfl⟩ : ∃ m, n = m + 1 := ⟨n - 1, (Nat.succ_pred_eq_of_pos hn).symm⟩
    by_cases hneg :
        rawPrediction models (forecastPath models anchor m) i < 0 <;>
      simp [forecastPath, forecastStep, hmem, hneg]
    linarith

/-- C5 witness: the clamp evaluated on a model set whose raw prediction is
the negative constant −1: the stored value for `NEET_Rate` in record 1 is
zero. -/
theorem clamp_floor_invariant_witness :
    Ind.neetRate ∈ clampList ∧ 1 ≤ 1 ∧
    (forecastStep negModels demoAnchor).cur Ind.neetRate =
      (if rawPrediction negModels demoAnchor Ind.neetRate < 0 then 0
       else rawPrediction negModels demoAnchor Ind.neetRate) :=
  ⟨by decide, le_refl 1,
    (clamp_floor_invariant negModels demoAnchor demoAnchor Ind.neetRate 1
      (by decide) (le_refl 1)).1⟩

/-- C2: for every indicator carrying a fixed numeric threshold and a
direction — in either classifier of the repository — the status is Green
exactly when the forecast meets the threshold inclusively in the
configured direction, Orange exactly when the threshold is missed but the
forecast is strictly better than the last observed value, and Red exactly
when both fail; the three rules are tried in that order. -/
theorem fixed_target_classification :
    (∀ i goal dir, targets2030 i = (some goal, dir) → ∀ last forecast,
      (classify2030 i last forecast = .green ↔ meetsTarget dir goal forecast) ∧
      (classify2030 i last forecast = .orange ↔
        ¬ meetsTarget dir goal forecast ∧ strictlyBetter dir last forecast) ∧
      (classify2030 i last forecast = .red ↔
        ¬ meetsTarget dir goal forecast ∧ ¬ strictlyBetter dir last forecast)) ∧
    (∀ i goal dir, pTargets i = .fixed goal dir → ∀ val2005 last forecast,
      (get_status i forecast last val2005 = .green ↔ meetsTarget dir goal forecast) ∧
      (get_status i forecast last val2005 = .orange ↔
        ¬ meetsTarget dir goal forecast ∧ strictlyBetter dir last forecast) ∧
      (get_status i forecast last val2005 = .red ↔
        ¬ meetsTarget dir goal forecast ∧ ¬ strictlyBetter dir last forecast)) := by
  constructor
  · intro i goal dir h last forecast
    cases i <;>
      simp only [targets2030, Prod.mk.injEq, Option.some.injEq, reduceCtorEq,
        false_and] at h <;>
      obtain ⟨rfl, rfl⟩ := h <;>
      simp only [classify2030, targets2030, meetsTarget, strictlyBetter] <;>
      split_ifs <;> simp_all
  · intro i goal dir h val2005 last forecast
    cases i <;>
      simp only [pTargets, PTarget.fixed.injEq, reduceCtorEq, false_and] at h <;>
      obtain ⟨rfl, rfl⟩ := h <;>
      simp only [get_status, pTargets, meetsTarget, strictlyBetter,
        reduceCtorEq, if_false, reduceIte] <;>
      split_ifs <;> simp_all

/-- C2 witness: `NEET_Rate` with target 9 (lower is better), last value
10, forecast 8.5: the first classifier answers Green, and 8.5 meets the
threshold. -/
theorem fixed_target_classification_witness :
    targets2030 Ind.neetRate = (some 9, Direction.lower) ∧
    (classify2030 Ind.neetRate 10 (17/2) = Status.green ↔
      meetsTarget Direction.lower 9 (17/2)) :=
  ⟨rfl, (fixed_target_classification.1 Ind.neetRate 9 Direction.lower rfl
    10 (17/2)).1⟩

/-- C3 counterexample: with last observed value exactly 0 and forecast 1,
the growth rule of `forecast_to_2030.py` classifies `Real_GDP_Per_Capita`
as Green (the float division yields `+inf`), not as the Stagnation (Red)
the claim derives from a percentage change defined as zero. -/
theorem gdp_zero_division_not_stagnation :
    classify2030 Ind.realGDPPerCapita 0 1 = Status.green ∧
    Status.green ≠ Status.red :=
  ⟨by decide, by decide⟩

/-- C3 (amended): for a non-zero last observed value the growth rule is as
claimed — percentage change strictly above 10 is High Growth (Green),
in [5, 10] Medium Growth (Orange), strictly below 5 Stagnation (Red); when
the last observed value is exactly zero no error is raised, but the
division produces an IEEE infinity or NaN rather than zero, so the
classifier returns High Growth for a positive forecast and Stagnation
otherwise. -/
theorem gdp_growth_classification (last forecast : ℚ) :
    (last ≠ 0 →
      (classify2030 .realGDPPerCapita last forecast = .green ↔
        10 < (forecast - last) / last * 100) ∧
      (classify2030 .realGDPPerCapita last forecast = .orange ↔
        5 ≤ (forecast - last) / last * 100 ∧ (forecast - last) / last * 100 ≤ 10) ∧
      (classify2030 .realGDPPerCapita last forecast = .red ↔
        (forecast - last) / last * 100 < 5)) ∧
    (classify2030 .realGDPPerCapita 0 forecast =
      if 0 < forecast then .green else .red) := by
  constructor
  · intro hne
    simp only [classify2030, targets2030, gdpGrowthStatus, if_pos rfl, hne,
      if_false, reduceCtorEq]
    split_ifs <;> simp_all
    linarith
  · simp [classify2030, targets2030, gdpGrowthStatus]

/-- C3 witness: last value 30000, forecast 31200 (4 percent growth): the
classifier returns Red, matching the Stagnation bound of the amended
claim. -/
theorem gdp_growth_classification_witness :
    (30000 : ℚ) ≠ 0 ∧
    (classify2030 Ind.realGDPPerCapita 30000 31200 = Status.red ↔
      ((31200 : ℚ) - 30000) / 30000 * 100 < 5) :=
  ⟨by norm_num, ((gdp_growth_classification 30000 31200).1 (by norm_num)).2.2⟩

/-- C7: for every trend-only indicator of `forecast_to_2030.py` (no fixed
threshold, not the growth-based GDP rule), the classifier is two-state:
Green exactly when the forecast is strictly better than the last observed
value in the configured direction, Red otherwise, and Orange is never
emitted. -/
theorem trend_only_two_state (i : Ind) (dir : Direction)
    (hnone : targets2030 i = (none, dir)) (hgdp : i ≠ .realGDPPerCapita)
    (last forecast : ℚ) :
    (classify2030 i last forecast = .green ↔ strictlyBetter dir last forecast) ∧
    (classify2030 i last forecast = .red ↔ ¬ strictlyBetter dir last forecast) ∧
    classify2030 i last forecast ≠ .orange := by
  cases i <;>
    simp only [targets2030, Prod.mk.injEq, Option.some.injEq, reduceCtorEq,
      false_and, true_and] at hnone <;>
    first
      | exact absurd rfl hgdp
      | (obtain rfl := hnone
         simp only [classify2030, targets2030, strictlyBetter, reduceCtorEq,
           if_false, reduceIte]
         split_ifs <;> simp_all)

/-- C7 witness: `GHG_Emissions` (trend-only, lower is better), last value
100, forecast 90: Green, equivalent to the forecast being strictly below
the last value. -/
theorem trend_only_two_state_witness :
    targets2030 Ind.ghgEmissions = (none, Direction.lower) ∧
    Ind.ghgEmissions ≠ Ind.realGDPPerCapita ∧
    (classify2030 Ind.ghgEmissions 100 90 = Status.green ↔
      strictlyBetter Direction.lower 100 90) :=
  ⟨rfl, by decide,
    (trend_only_two_state Ind.ghgEmissions Direction.lower rfl (by decide)
      100 90).1⟩

/-- C10: the `GHG_Emissions` branch of `get_status` in `projections.py`:
with the 2005 value available, Green exactly when the 2030 forecast is at
most 0.60 times the 2005 value, otherwise Orange exactly when the forecast
is strictly below the latest observed value, else Red; when the 2005
lookup fails, the rule falls back to the pure trend comparison instead of
failing. -/
theorem ghg_relative_classification (v2005 val2030 valLatest : ℚ) :
    (get_status .ghgEmissions val2030 valLatest (some v2005) = .green ↔
      val2030 ≤ v2005 * (3/5)) ∧
    (get_status .ghgEmissions val2030 valLatest (some v2005) = .orange ↔
      ¬ val2030 ≤ v2005 * (3/5) ∧ val2030 < valLatest) ∧
    (get_status .ghgEmissions val2030 valLatest (some v2005) = .red ↔
      ¬ val2030 ≤ v2005 * (3/5) ∧ ¬ val2030 < valLatest) ∧
    (get_status .ghgEmissions val2030 valLatest none = .orange ↔
      val2030 < valLatest) ∧
    (get_status .ghgEmissions val2030 valLatest none = .red ↔
      ¬ val2030 < valLatest) := by
  simp only [get_status, reduceCtorEq, if_false, reduceIte]
  split_ifs <;> simp_all

lemma roundHalfEven_ge_floor (q : ℚ) : ⌊q⌋ ≤ roundHalfEven q := by
  unfold roundHalfEven
  split_ifs <;> omega

lemma roundHalfEven_le_ceil (q : ℚ) : roundHalfEven q ≤ ⌈q⌉ := by
  unfold roundHalfEven
  split_ifs with h1 h2 h3
  · exact Int.floor_le_ceil q
  · have hlt : (⌊q⌋ : ℚ) < q := by linarith
    have : (⌊q⌋ : ℚ) < (⌈q⌉ : ℚ) := lt_of_lt_of_le hlt (Int.le_ceil q)
    exact_mod_cast Int.add_one_le_iff.2 (by exact_mod_cast this)
  · exact Int.floor_le_ceil q
  · have hfrac : (1 : ℚ)/2 ≤ q - ⌊q⌋ := le_of_not_lt h1
    have hlt : (⌊q⌋ : ℚ) < q := by linarith
    have : (⌊q⌋ : ℚ) < (⌈q⌉ : ℚ) := lt_of_lt_of_le hlt (Int.le_ceil q)
    exact_mod_cast Int.add_one_le_iff.2 (by exact_mod_cast this)

lemma round2_bounds {q : ℚ} (h1 : 1 ≤ q) (h3 : q ≤ 3) :
    1 ≤ round2 q ∧ round2 q ≤ 3 := by
  have hf : (100 : ℤ) ≤ ⌊q * 100⌋ := Int.le_floor.2 (by push_cast; linarith)
  have hc : ⌈q * 100⌉ ≤ (300 : ℤ) := Int.ceil_le.2 (by push_cast; linarith)
  have h4 := roundHalfEven_ge_floor (q * 100)
  have h5 := roundHalfEven_le_ceil (q * 100)
  have hlo : (100 : ℚ) ≤ (roundHalfEven (q * 100) : ℚ) := by
    exact_mod_cast le_trans hf h4
  have hhi : (roundHalfEven (q * 100) : ℚ) ≤ 300 := by
    exact_mod_cast le_trans h5 hc
  unfold round2
  constructor <;> [rw [le_div_iff₀ (by norm_num)]; rw [div_le_iff₀ (by norm_num)]] <;>
    linarith

lemma scoreMap_mem_Icc (s : Status) :
    1 ≤ (scoreMap s : ℚ) ∧ (scoreMap s : ℚ) ≤ 3 := by
  cases s <;> norm_num [scoreMap]

lemma sum_scores_bounds (sts : List Status) :
    (sts.length : ℚ) ≤ (sts.map fun s => (scoreMap s : ℚ)).sum ∧
    (sts.map fun s => (scoreMap s : ℚ)).sum ≤ 3 * sts.length := by
  induction sts with
  | nil => simp
  | cons s ss ih =>
    have hs := scoreMap_mem_Icc s
    simp only [List.map_cons, List.sum_cons, List.length_cons]
    push_cast
    exact ⟨by linarith [ih.1, hs.1], by linarith [ih.2, hs.2]⟩

/-- C8: for a country with seven status records, `Global_Score` is the
arithmetic mean of the seven ordinal scores (Green 3, Orange 2, Red 1)
rounded to two decimals, and always lies in [1, 3]; `Final_Grade` is
OnTrack exactly when the score is at least 2.5, Progressing exactly when
it is at least 1.8 and below 2.5, and OffTrack exactly when it is below
1.8 — so the three grade buckets cover every score in [1, 3] exactly
once. -/
theorem global_score_and_grade (statuses : List Status)
    (hlen : statuses.length = 7) :
    calculate_score statuses =
      round2 ((statuses.map fun s => (scoreMap s : ℚ)).sum / 7) ∧
    1 ≤ calculate_score statuses ∧ calculate_score statuses ≤ 3 ∧
    (∀ q : ℚ,
      (get_grade q = .onTrack ↔ 5/2 ≤ q) ∧
      (get_grade q = .progressing ↔ 9/5 ≤ q ∧ q < 5/2) ∧
      (get_grade q = .offTrack ↔ q < 9/5)) := by
  have hsum := sum_scores_bounds statuses
  rw [hlen] at hsum
  have hmean1 : 1 ≤ (statuses.map fun s => (scoreMap s : ℚ)).sum / 7 := by
    rw [le_div_iff₀ (by norm_num)]
    have := hsum.1
    push_cast at this ⊢
    linarith
  have hmean3 : (statuses.map fun s => (scoreMap s : ℚ)).sum / 7 ≤ 3 := by
    rw [div_le_iff₀ (by norm_num)]
    have := hsum.2
    push_cast at this ⊢
    linarith
  have hb := round2_bounds hmean1 hmean3
  have hcs : calculate_score statuses =
      round2 ((statuses.map fun s => (scoreMap s : ℚ)).sum / 7) := by
    simp [calculate_score, hlen]
  refine ⟨hcs, by rw [hcs]; exact hb.1, by rw [hcs]; exact hb.2, ?_⟩
  intro q
  unfold get_grade
  split_ifs with hq1 hq2
  · refine ⟨by simp [hq1], ?_, ?_⟩
    · simp only [reduceCtorEq, false_iff]
      rintro ⟨-, h2⟩
      linarith
    · simp only [reduceCtorEq, false_iff, not_lt]
      linarith
  · refine ⟨by simp only [reduceCtorEq, false_iff]; exact hq1, ?_, ?_⟩
    · simp only [true_iff]
      exact ⟨hq2, lt_of_not_le hq1⟩
    · simp only [reduceCtorEq, false_iff, not_lt]
      exact hq2
  · refine ⟨?_, ?_, by simp only [true_iff]; exact lt_of_not_le hq2⟩
    · simp only [reduceCtorEq, false_iff]
      intro h
      exact hq2 (by linarith)
    · simp only [reduceCtorEq, false_iff]
      rintro ⟨h, -⟩
      exact hq2 h

/-- C8 witness: seven concrete statuses (score 15/7, rounded to 2.14): the
score lies in [1, 3]. -/
theorem global_score_and_grade_witness :
    demoStatuses.length = 7 ∧
    1 ≤ calculate_score demoStatuses ∧ calculate_score demoStatuses ≤ 3 :=
  ⟨rfl, (global_score_and_grade demoStatuses rfl).2.1,
    (global_score_and_grade demoStatuses rfl).2.2.1⟩

/-- C9: in `projections.py`, the 2030 value of an indicator for a country
is the year-only ordinary-least-squares line evaluated at 2030, fitted on
the training set obtained from the rows of the country by removing exactly
the rows of year 2020 and keeping every other row; consequently the
prediction is unchanged by any modification confined to 2020 rows. -/
theorem year_only_regression_excludes_2020 :
    (∀ rows : List YRow, projPred2030 rows = olsPredictAt (dfTrain rows) 2030) ∧
    (∀ rows : List YRow, ∀ r : YRow,
      r ∈ dfTrain rows ↔ r ∈ rows ∧ r.year ≠ 2020) ∧
    (∀ rowsA rowsB : List YRow, dfTrain rowsA = dfTrain rowsB →
      projPred2030 rowsA = projPred2030 rowsB) := by
  refine ⟨fun rows => rfl, ?_, ?_⟩
  · intro rows r
    simp [dfTrain, List.mem_filter]
  · intro rowsA rowsB h
    unfold projPred2030
    rw [h]

/-- C9 witness: a dataset with a 2020 row and the same dataset without it
produce the same 2030 prediction. -/
theorem year_only_regression_excludes_2020_witness :
    dfTrain [YRow.mk 2019 1, YRow.mk 2020 5, YRow.mk 2021 2] =
      dfTrain [YRow.mk 2019 1, YRow.mk 2021 2] ∧
    projPred2030 [YRow.mk 2019 1, YRow.mk 2020 5, YRow.mk 2021 2] =
      projPred2030 [YRow.mk 2019 1, YRow.mk 2021 2] :=
  ⟨by decide,
    year_only_regression_excludes_2020.2.2
      [YRow.mk 2019 1, YRow.mk 2020 5, YRow.mk 2021 2]
      [YRow.mk 2019 1, YRow.mk 2021 2] (by decide)⟩

/-- C6 counterexample: for `Renewable_Energy_Share` (features: year and
the `Real_GDP_Per_Capita` lag), the training set the source uses differs
from the set the claim describes: the 2021 row of `exRows` has the target
and every chosen feature column present, yet `df_country.dropna()` drops
it because the unused `NEET_Rate` column is missing. -/
theorem dropna_excludes_unused_columns :
    trainRowsFor exRows Ind.renewableEnergyShare ≠
      specTrainRows exRows Ind.renewableEnergyShare ∧
    exRow2021 ∈ specTrainRows exRows Ind.renewableEnergyShare ∧
    exRow2021 ∉ trainRowsFor exRows Ind.renewableEnergyShare :=
  ⟨by decide, by decide, by decide⟩

/-- C6 (amended): for the six indicators other than `GHG_Emissions`, the
training rows are exactly the lag-augmented rows of the country in which
every column — all seven indicators and all seven lag columns, used by the
model or not — is non-missing (so a missing value in an unused column does
exclude the row, and the first row of a country is always excluded); for
`GHG_Emissions` every row of the country is used, with no filtering at
all. -/
theorem training_rows_characterization (rows : List Obs) (col : Ind)
    (r : LagObs) :
    r ∈ trainRowsFor rows col ↔
      r ∈ buildLagged rows ∧
        (col = .ghgEmissions ∨
          (r.vals.allSome = true ∧ r.lags.allSome = true)) := by
  unfold trainRowsFor
  by_cases h : col = .ghgEmissions
  · simp [h]
  · simp [h, dropna, List.mem_filter, Bool.and_eq_true]

lemma exModel_neet :
    buildModels oneRowFit exRows Ind.neetRate =
      { intercept := 12, coefs := List.replicate 3 0 } := by decide

lemma exRaw_neet (prev : PathRec) :
    rawPrediction (buildModels oneRowFit exRows) prev Ind.neetRate = 12 := by
  rw [rawPrediction, exModel_neet]
  norm_num [LinModel.predict, featVec, modelFeatures, featureSelectionMap,
    dotProd]

lemma exPath_neet (n : Nat) (h : 1 ≤ n) :
    (forecastPath (buildModels oneRowFit exRows) (mkAnchor exAnchor) n).cur
      Ind.neetRate = 12 := by
  obtain ⟨m, rfl⟩ : ∃ m, n = m + 1 := ⟨n - 1, (Nat.succ_pred_eq_of_pos h).symm⟩
  simp [forecastPath, forecastStep, exRaw_neet]

/-- C4 counterexample: on `exRows`, `NEET_Rate` has a single training row
— fewer than its four model parameters — yet a model is produced (the
library fit is invoked unconditionally, there being no training-size
check) and the output row carries the fabricated numeric 2030 forecast 12
instead of any "no forecast" marker. -/
theorem insufficient_rows_still_fit :
    (trainRowsFor exRows Ind.neetRate).length = 1 ∧
    1 < paramCount Ind.neetRate ∧
    buildModels oneRowFit exRows Ind.neetRate =
      oneRowFit (designMatrix exRows Ind.neetRate)
        (targetVec exRows Ind.neetRate) ∧
    (outRec2030 (buildModels oneRowFit exRows) (mkAnchor exAnchor)
        Ind.neetRate).forecastValue = 12 :=
  ⟨by decide, by decide, rfl, exPath_neet 8 (by norm_num)⟩

/-- C4 (amended): the fitting loop has no training-size check: even when
an indicator has fewer training rows than model parameters, its model is
whatever the library fit returns on that design matrix (the library
succeeds on any non-empty training set, underdetermined ones included, and
an empty one would abort the whole run), every indicator gets a model, and
the output record for the pair carries the numeric 2030 value of the
Forecast Path — the output schema has no "no forecast" marker. -/
theorem fitting_has_no_size_guard (fit : List (List ℚ) → List ℚ → LinModel)
    (rows : List Obs) (col : Ind) (anchor : PathRec)
    (hfew : (trainRowsFor rows col).length < paramCount col) :
    buildModels fit rows col =
      fit (designMatrix rows col) (targetVec rows col) ∧
    (∀ j : Ind, buildModels fit rows j =
      fit (designMatrix rows j) (targetVec rows j)) ∧
    (outRec2030 (buildModels fit rows) anchor col).forecastValue =
      (forecastPath (buildModels fit rows) anchor 8).cur col :=
  ⟨rfl, fun _ => rfl, rfl⟩

/-- C4 witness: the no-guard theorem applied to the concrete table with
one `NEET_Rate` training row. -/
theorem fitting_has_no_size_guard_witness :
    (trainRowsFor exRows Ind.neetRate).length < paramCount Ind.neetRate ∧
    buildModels oneRowFit exRows Ind.neetRate =
      oneRowFit (designMatrix exRows Ind.neetRate)
        (targetVec exRows Ind.neetRate) :=
  ⟨by decide,
    (fitting_has_no_size_guard oneRowFit exRows Ind.neetRate
      (mkAnchor exAnchor) (by decide)).1⟩

end ForecastEngine
